import Mathlib

/- Verification development for the OpenGrok MCP server's client layer.

The embedding covers the two backend pipelines of the repository:
the html-scrape client (class OpenGrokClient of opengrok-client.ts, web
interface), the rest-api client (class OpenGrokApiClient of
opengrok-api-client.ts plus its OpenGrokClient wrapper), and the cookie
holder (class OpenGrokAuth of auth.ts).

JavaScript semantics are embedded explicitly: a JS number that can be NaN
is modelled by JsNum, parseInt by jsParseInt, string truthiness by
comparison with the empty string, and the regular expressions of the
html pipeline by direct left-to-right scanners with the same
leftmost-match semantics. Thrown Error values are modelled by the Failure
type: each throw site of the source maps to one constructor according to
its message (the authentication throw sites to authenticationExpired, the
generic status throw sites to upstreamError, axios-level rejections to
transportError); the outer catch blocks of the source only prepend context
text to the message and never change which site threw. -/

namespace OpenGrokMCP

/-- A JavaScript number that may be NaN (parseInt on a non-numeric string). -/
inductive JsNum where
  | num (n : Int)
  | nan
deriving DecidableEq, Repr

/-- Value of a list of decimal digit characters. -/
def digitsVal (ds : List Char) : Nat :=
  ds.foldl (fun acc c => acc * 10 + (c.toNat - 48)) 0

/-- The whitespace characters JS parseInt skips (the ASCII ones; the further
Unicode space characters never occur in the inputs modelled here). -/
def jsSpaceChar (c : Char) : Bool :=
  c == ' ' || c == '\t' || c == '\n' || c == '\r' || c == '\x0b' || c == '\x0c'

/-- JS parseInt(s, 10): skip leading whitespace, read an optional sign and the
longest leading run of decimal digits; NaN when that run is empty. -/
def jsParseInt (s : String) : JsNum :=
  let cs := s.data.dropWhile (fun c => jsSpaceChar c)
  let signed : Int × List Char :=
    match cs with
    | '-' :: rest => (-1, rest)
    | '+' :: rest => (1, rest)
    | _ => (1, cs)
  let digits := signed.2.takeWhile Char.isDigit
  if digits.isEmpty then JsNum.nan
  else JsNum.num (signed.1 * (digitsVal digits : Int))

/-- JS `x || 0` on a number: NaN (and 0 itself) becomes 0. -/
def jsOrZero : JsNum → Int
  | JsNum.num n => n
  | JsNum.nan => 0

/-- JS `s || d` on a string s: the empty string is falsy. -/
def jsStrOr (o : Option String) (d : String) : String :=
  match o with
  | some s => if s = "" then d else s
  | none => d

/-- Truthiness of an optional JS string (undefined and the empty string are
falsy). -/
def jsOptStrTruthy (o : Option String) : Bool :=
  match o with
  | some s => s != ""
  | none => false

/-- Whether pat occurs in the list as a contiguous sublist. -/
def subOccurs (pat : List Char) : List Char → Bool
  | [] => pat.isEmpty
  | c :: cs => pat.isPrefixOf (c :: cs) || subOccurs pat cs

/-- Whether sub occurs in s as a substring. -/
def containsSubstr (s sub : String) : Bool :=
  subOccurs sub.data s.data

/-- JS String.prototype.split on a one-character separator. -/
def splitOnChar (sep : Char) : List Char → List (List Char)
  | [] => [[]]
  | c :: cs =>
    if c = sep then [] :: splitOnChar sep cs
    else
      match splitOnChar sep cs with
      | h :: t => (c :: h) :: t
      | [] => [[c]]

/-- JS String.prototype.trim (the ASCII whitespace characters). -/
def jsTrim (s : String) : String :=
  String.mk (((s.data.dropWhile jsSpaceChar).reverse.dropWhile jsSpaceChar).reverse)

/-- Global replacement of a literal pattern, scanning left to right without
overlap, as JS String.prototype.replace with a global literal pattern. The
fuel bounds the steps, every step consuming at least one character. -/
def replaceSubAux (pat rep : List Char) : Nat → List Char → List Char
  | 0, cs => cs
  | _ + 1, [] => []
  | fuel + 1, c :: cs =>
    if pat.isPrefixOf (c :: cs) && !pat.isEmpty then
      rep ++ replaceSubAux pat rep fuel ((c :: cs).drop pat.length)
    else c :: replaceSubAux pat rep fuel cs

/-- JS s.replace(pat as a global literal, rep). -/
def jsReplaceAll (s pat rep : String) : String :=
  String.mk (replaceSubAux pat.data rep.data s.data.length s.data)

/-- An upstream HTTP response as the axios client hands it to the code:
a status code and a body. -/
structure HttpResponse where
  status : Nat
  data : String
deriving DecidableEq, Repr

/-- The failures this layer surfaces. Each throw site of the source maps to
one constructor by its message: the explicit 401/403 conversions to
authenticationExpired (their messages carry the cookie-refresh remediation),
all other status-based throws to upstreamError, and rejections of the HTTP
client itself to transportError. -/
inductive Failure where
  | authenticationExpired (status : Nat) (message : String)
  | upstreamError (status : Nat) (message : String)
  | transportError (message : String)
deriving DecidableEq, Repr

/-- Whether a failure is classified authentication-expired. -/
def Failure.isAuthExpired : Failure → Bool
  | Failure.authenticationExpired _ _ => true
  | _ => false

/-- One per-line hit record of the REST search payload
(SearchResponse.results values in opengrok-api-client.ts). -/
structure RestHit where
  line : String
  lineNumber : String
  tag : String
deriving DecidableEq, Repr

/-- The REST search payload: a mapping from file path to the ordered list of
hits in that file. JS object keys are unique and Object.entries returns them
in insertion order, so the mapping is a list of pairs with distinct keys;
the scalar envelope fields (time, resultCount, startDocument, endDocument)
are unused by the normalizer and omitted. -/
structure SearchResponse where
  results : List (String × List RestHit)
deriving DecidableEq, Repr

/-- The canonical search hit (interface SearchResult of both client files). -/
structure SearchResult where
  path : String
  line : JsNum
  snippet : String
  project : String
deriving DecidableEq, Repr

/-- interface FileContent of both client files. -/
structure FileContent where
  path : String
  content : String
  project : String
deriving DecidableEq, Repr

/-- The kind tag of a cross-reference record. -/
inductive XrefKind where
  | definition
  | reference
deriving DecidableEq, Repr

/-- interface CrossReference of both client files. -/
structure CrossReference where
  symbol : String
  file : String
  line : JsNum
  type : XrefKind
deriving DecidableEq, Repr

/- ── Transport adapters: the validateStatus policies ─────────────────────
html-scrape mode (opengrok-client.ts constructor): validateStatus: () => true.
rest-api mode (opengrok-api-client.ts constructor):
  validateStatus: (status) => status >= 200 && status < 500.
auth client (auth.ts constructor): validateStatus: () => true. -/

def htmlValidateStatus (_status : Nat) : Bool := true

def restValidateStatus (status : Nat) : Bool :=
  decide (200 ≤ status ∧ status < 500)

def authValidateStatus (_status : Nat) : Bool := true

/- ── Status classification per operation ─────────────────────────────────
Each Option-valued function is the status inspection an operation performs
on the response before touching the body: some failure, or none to
proceed. -/

/-- OpenGrokClient.search (html): 401/403 become the authentication failure
whose message points at the cookie remediation; any other non-200 status a
generic error. -/
def htmlSearchCheckStatus (status : Nat) : Option Failure :=
  if status = 401 ∨ status = 403 then
    some (Failure.authenticationExpired status
      s!"Authentication failed ({status}). Your session cookies have expired. See console for instructions.")
  else if status ≠ 200 then
    some (Failure.upstreamError status s!"OpenGrok search failed with status {status}")
  else none

/-- OpenGrokClient.getFileContent (html): status inspection of the final
(possibly retried) response. -/
def htmlGetFileCheckStatus (status : Nat) : Option Failure :=
  if status = 401 ∨ status = 403 then
    some (Failure.authenticationExpired status
      s!"Authentication failed ({status}). Update OPENGROK_COOKIES.")
  else if status ≠ 200 then
    some (Failure.upstreamError status
      s!"Failed to get file: {status}. Tip: Omit the 'project' parameter and use the full path from search results (e.g., 'ProjectName/path/to/file').")
  else none

/-- OpenGrokClient.getCrossReferences (html): only the 401/403 conversion is
performed; any other status proceeds to parsing. -/
def htmlXrefCheckStatus (status : Nat) : Option Failure :=
  if status = 401 ∨ status = 403 then
    some (Failure.authenticationExpired status
      s!"Authentication failed ({status}). Update OPENGROK_COOKIES.")
  else none

/-- OpenGrokClient.listProjects (html). -/
def htmlListProjectsCheckStatus (status : Nat) : Option Failure :=
  if status = 401 ∨ status = 403 then
    some (Failure.authenticationExpired status
      s!"Authentication failed ({status}). Update OPENGROK_COOKIES.")
  else if status ≠ 200 then
    some (Failure.upstreamError status s!"OpenGrok API error: {status}")
  else none

/-- The status-check pattern shared by the auth-checked rest-api operations
(getAnnotation, getFileContent, getFileGenre, getFileDefinitions, getHistory,
getDirectoryListing, getLastIndexTime, getProjects, getIndexedProjects,
getProjectRepositories, getProjectRepositoryTypes, getProjectIndexedFiles and
the further admin endpoints): 401/403 first, then a comparison with the
expected success status. -/
def restCheckedStatus (failMsg : String) (okStatus status : Nat) : Option Failure :=
  if status = 401 ∨ status = 403 then
    some (Failure.authenticationExpired status
      s!"Authentication failed ({status}). Update OPENGROK_COOKIES.")
  else if status ≠ okStatus then
    some (Failure.upstreamError status s!"{failMsg}: {status}")
  else none

/-- OpenGrokApiClient.search: no 401/403 conversion is performed; every
non-200 status becomes the same generic error. -/
def restSearchCheckStatus (status : Nat) : Option Failure :=
  if status ≠ 200 then
    some (Failure.upstreamError status s!"Search failed with status {status}")
  else none

/-- OpenGrokApiClient.getSuggestions: no 401/403 conversion. -/
def restSuggestCheckStatus (status : Nat) : Option Failure :=
  if status ≠ 200 then
    some (Failure.upstreamError status s!"Get suggestions failed with status {status}")
  else none

/-- OpenGrokApiClient.getVersion: no 401/403 conversion. -/
def restVersionCheckStatus (status : Nat) : Option Failure :=
  if status ≠ 200 then
    some (Failure.upstreamError status s!"Failed to get version: {status}")
  else none

/- ── rest-api transport and ping ─────────────────────────────────────────
An axios call in rest-api mode resolves when validateStatus accepts the
status and rejects otherwise; a transport-level failure (timeout, refused
connection, thrown error) is an Except.error oracle. -/

/-- The rest-api adapter's view of one HTTP exchange. -/
def restTransport (outcome : Except String HttpResponse) : Except Failure HttpResponse :=
  match outcome with
  | Except.error msg => Except.error (Failure.transportError msg)
  | Except.ok r =>
    if restValidateStatus r.status then Except.ok r
    else Except.error (Failure.transportError s!"Request failed with status code {r.status}")

/-- OpenGrokApiClient.ping: try the exchange, return status === 200, and
return false from the catch block on any thrown failure. The OpenGrokClient
wrapper adds one more try/catch that also returns false, which cannot change
a Bool-valued total function. -/
def ping (outcome : Except String HttpResponse) : Bool :=
  match restTransport outcome with
  | Except.ok r => r.status == 200
  | Except.error _ => false

/- ── REST result normalizer ──────────────────────────────────────────────
OpenGrokClient.transformSearchResults (rest wrapper): flattens the per-file
mapping; a hit is kept only when both lineNumber and line are truthy
(non-empty) strings. The source computes the dedup key
filePath + ":" + lineNumber into a local constant but never reads it: no
deduplication happens here. -/

/-- The loop body of transformSearchResults for one hit of one file. -/
def restHitToResult (filePath project : String) (hit : RestHit) : Option SearchResult :=
  if hit.lineNumber ≠ "" ∧ hit.line ≠ "" then
    some { path := filePath
         , line := if hit.lineNumber ≠ "" then jsParseInt hit.lineNumber else JsNum.num 0
         , snippet := hit.line
         , project := if project ≠ "" then project else "unknown" }
  else none

/-- OpenGrokClient.transformSearchResults. -/
def transformSearchResults (apiResponse : SearchResponse) (project : String) :
    List SearchResult :=
  apiResponse.results.flatMap (fun entry => entry.2.filterMap (restHitToResult entry.1 project))

/- ── HTML file-content extraction ────────────────────────────────────────
OpenGrokClient.extractFileContent: html.match(a pre-block pattern), then
strip the markup tags, then reverse the lt, gt and amp escapes in that
order, then trim. The pre-block pattern finds, left to right, the first
position matching: the literal less-than p r e, any characters other than
the closing angle bracket, that bracket, then the shortest body up to the
closing pre tag; the lazy body group admits line terminators. -/

/-- First occurrence of pat in the list: the part before it and the part
after it. -/
def splitAtSub (pat : List Char) : List Char → Option (List Char × List Char)
  | [] => none
  | c :: cs =>
    if pat.isPrefixOf (c :: cs) then some ([], (c :: cs).drop pat.length)
    else
      match splitAtSub pat cs with
      | some (before, after) => some (c :: before, after)
      | none => none

/-- Attempt the pre-block pattern at the head of the character list,
returning the captured body. -/
def tryPreAt (cs : List Char) : Option String :=
  if ("<pre".data).isPrefixOf cs then
    let afterTag := cs.drop 4
    let attrs := afterTag.takeWhile (fun c => c != '>')
    match afterTag.drop attrs.length with
    | '>' :: rest =>
      match splitAtSub ("</pre>".data) rest with
      | some (inner, _) => some (String.mk inner)
      | none => none
    | _ => none
  else none

/-- Leftmost match of the pre-block pattern over the whole string. -/
def findFirstPreAux : List Char → Option String
  | [] => none
  | c :: cs =>
    match tryPreAt (c :: cs) with
    | some inner => some inner
    | none => findFirstPreAux cs

/-- html.match of the pre-block pattern: the first captured body, if any. -/
def findFirstPre (html : String) : Option String :=
  findFirstPreAux html.data

/-- Global replacement of the tag pattern (a less-than sign, one or more
characters other than the closing angle bracket, that bracket) by nothing,
scanning left to right without overlap. -/
def stripTagsAux : Nat → List Char → List Char
  | 0, cs => cs
  | _ + 1, [] => []
  | fuel + 1, c :: cs =>
    if c = '<' then
      let inner := cs.takeWhile (fun d => d != '>')
      match cs.drop inner.length with
      | '>' :: rest =>
        if inner.isEmpty then c :: stripTagsAux fuel cs
        else stripTagsAux fuel rest
      | _ => c :: stripTagsAux fuel cs
    else c :: stripTagsAux fuel cs

/-- The tag-stripping replace of extractFileContent. The fuel equals the
length of the text, which bounds the number of scanning steps since every
step consumes at least one character. -/
def stripTags (s : String) : String :=
  String.mk (stripTagsAux s.data.length s.data)

/-- OpenGrokClient.extractFileContent. -/
def extractFileContent (html : String) : String :=
  match findFirstPre html with
  | some inner =>
    jsTrim (jsReplaceAll (jsReplaceAll (jsReplaceAll (stripTags inner)
      "&lt;" "<") "&gt;" ">") "&amp;" "&")
  | none => "File content could not be extracted"

/- ── html-scrape getFileContent with its retry ───────────────────────────
OpenGrokClient.getFileContent (html): one request without the project
segment; when it returns 404 and the project argument is truthy, one
request with the segment prepended; then the status inspection and the
extraction on the final response. The second component of the result is
the list of requested URLs in order. -/

def getFileContent (server : String → HttpResponse) (path : String)
    (project : Option String) : Except Failure FileContent × List String :=
  let url1 := "/xref/" ++ path
  let r1 := server url1
  let attempt2 : HttpResponse × List String :=
    if r1.status = 404 ∧ jsOptStrTruthy project = true then
      let url2 := "/xref/" ++ project.getD "" ++ "/" ++ path
      (server url2, [url1, url2])
    else (r1, [url1])
  match htmlGetFileCheckStatus attempt2.1.status with
  | some f => (Except.error f, attempt2.2)
  | none =>
    (Except.ok { path := path
               , content := extractFileContent attempt2.1.data
               , project := project.getD "" }
     , attempt2.2)

/- ── HTML search-result extraction ───────────────────────────────────────
OpenGrokClient.parseSearchResults scans the page with the anchor pattern:
the literal less-than a, whitespace, the class attribute with value s,
whitespace, an href attribute starting with the xref path, a lazy non-quote
group, a hash sign, a digit group, the closing quote, any characters other
than the closing angle bracket, that bracket, a lazy dot group and the
closing anchor tag. For every match it parses the line number, forms the
key filePath + colon + line and keeps the hit only when the key is new. -/

/-- Match a literal at the head of the list and return what follows. -/
def expectLit (lit cs : List Char) : Option (List Char) :=
  if lit.isPrefixOf cs then some (cs.drop lit.length) else none

/-- Match one or more whitespace characters at the head of the list. -/
def expectWs1 (cs : List Char) : Option (List Char) :=
  let ws := cs.takeWhile jsSpaceChar
  if ws.isEmpty then none else some (cs.drop ws.length)

/-- Split the href body, the characters between the xref path and the
closing quote, into the file-path group and the digit group. The lazy path
group followed by a hash sign, greedy digits and the quote succeeds exactly
when the suffix after the last hash sign is a nonempty run of digits and
the part before that hash sign is nonempty, which is how the split is
computed here. -/
def splitHrefLineNo (href : List Char) : Option (List Char × List Char) :=
  let rev := href.reverse
  let digitsRev := rev.takeWhile (fun c => c != '#')
  if digitsRev.length = rev.length then none
  else
    let digits := digitsRev.reverse
    let path := (rev.drop (digitsRev.length + 1)).reverse
    if digits.isEmpty || !(digits.all Char.isDigit) || path.isEmpty then none
    else some (path, digits)

/-- Attempt the anchor pattern at the head of the character list: the
captures (file path, line digits, snippet) and the remainder after the
match. The dot of the lazy snippet group does not match line terminators,
so a candidate whose body up to the closing anchor tag holds one fails. -/
def matchAnchorAt (cs : List Char) : Option (String × String × String × List Char) := do
  let cs ← expectLit ("<a".data) cs
  let cs ← expectWs1 cs
  let cs ← expectLit ("class=\"s\"".data) cs
  let cs ← expectWs1 cs
  let cs ← expectLit ("href=\"/xref/".data) cs
  let href := cs.takeWhile (fun c => c != '"')
  match cs.drop href.length with
  | '"' :: cs2 =>
    match splitHrefLineNo href with
    | none => none
    | some (path, digits) =>
      let attrs := cs2.takeWhile (fun c => c != '>')
      match cs2.drop attrs.length with
      | '>' :: cs3 =>
        match splitAtSub ("</a>".data) cs3 with
        | none => none
        | some (snippet, rest) =>
          if snippet.any (fun c => c == '\n' || c == '\r') then none
          else some (String.mk path, String.mk digits, String.mk snippet, rest)
      | _ => none
  | _ => none

/-- The scanning loop of parseSearchResults: after a match the scan resumes
past its end, otherwise one character on; the seen set holds the dedup keys
already emitted. The fuel bounds the steps, every step consuming at least
one character. -/
def parseGo : Nat → List Char → List String → List SearchResult → Option String →
    List SearchResult
  | 0, _, _, acc, _ => acc
  | _ + 1, [], _, acc, _ => acc
  | fuel + 1, c :: cs, seen, acc, project =>
    match matchAnchorAt (c :: cs) with
    | some (filePath, lnDigits, snippet, rest) =>
      let line := jsOrZero (jsParseInt lnDigits)
      let key := filePath ++ ":" ++ toString line
      if seen.contains key then parseGo fuel rest seen acc project
      else
        parseGo fuel rest (key :: seen)
          (acc ++ [{ path := filePath, line := JsNum.num line, snippet := snippet
                   , project := jsStrOr project "unknown" }]) project
    | none => parseGo fuel cs seen acc project

/-- OpenGrokClient.parseSearchResults. -/
def parseSearchResults (html : String) (project : Option String) : List SearchResult :=
  parseGo (html.data.length + 1) html.data [] [] project

/- ── Cross-references ────────────────────────────────────────────────────
OpenGrokClient.getCrossReferences exists in both pipelines. The html one
checks only 401/403, parses the page as search results and stamps every
record with the definition kind. The rest one delegates to
OpenGrokApiClient.search (whose status check has no 401/403 conversion) and
stamps every record with the reference kind; its hit guard tests only the
lineNumber field. -/

def htmlGetCrossReferences (resp : HttpResponse) (symbol : String)
    (project : Option String) : Except Failure (List CrossReference) :=
  match htmlXrefCheckStatus resp.status with
  | some f => Except.error f
  | none =>
    let searchResults := parseSearchResults resp.data project
    Except.ok (searchResults.map (fun r =>
      { symbol := symbol, file := r.path, line := r.line, type := XrefKind.definition }))

def restGetCrossReferences (status : Nat) (resp : SearchResponse) (symbol : String) :
    Except Failure (List CrossReference) :=
  match restSearchCheckStatus status with
  | some f => Except.error f
  | none =>
    Except.ok (resp.results.flatMap (fun entry =>
      entry.2.filterMap (fun hit =>
        if hit.lineNumber ≠ "" then
          some { symbol := symbol, file := entry.1
               , line := jsParseInt hit.lineNumber, type := XrefKind.reference }
        else none)))

/- ── Credential holder (auth.ts with the tough-cookie jar) ───────────────
The jar is modelled as the ordered list of name and value pairs it holds
for the one configured origin: setting a cookie with a known name replaces
it in place, a new name appends; a set-cookie string without an equals sign
fails to parse (the source catches and logs this); the serialized form is
the name=value pairs joined by a semicolon and a space. -/

/-- tough-cookie parse of one set-cookie segment: the name before the first
equals sign and the value after it. -/
def parseCookiePair (s : String) : Option (String × String) :=
  match splitOnChar '=' s.data with
  | [] => none
  | [_] => none
  | name :: rest =>
    some (String.mk name, String.intercalate "=" (rest.map String.mk))

/-- CookieJar.setCookieSync on the modelled jar. -/
def setCookie (jar : List (String × String)) (c : String × String) :
    List (String × String) :=
  if jar.any (fun e => e.1 == c.1) then
    jar.map (fun e => if e.1 = c.1 then c else e)
  else jar ++ [c]

/-- OpenGrokAuth.loadCookiesFromString: split on the semicolon, trim each
segment, set each one, skipping segments that fail to parse. -/
def loadCookiesFromString (jar : List (String × String)) (cookieString : String) :
    List (String × String) :=
  ((splitOnChar ';' cookieString.data).map String.mk).foldl (fun j seg =>
    match parseCookiePair (jsTrim seg) with
    | some c => setCookie j c
    | none => j) jar

/-- OpenGrokAuth.getCookieString: every held cookie as name=value, joined. -/
def getCookieString (jar : List (String × String)) : String :=
  String.intercalate "; " (jar.map (fun c => c.1 ++ "=" ++ c.2))

/-- The mock upstream of the documented get-file scenario: 404 for the URL
without the project segment, 200 with a code block for the one with it. -/
def mockFileServer (url : String) : HttpResponse :=
  if url = "/xref/proj/file.c" then ⟨200, "<pre>int x;</pre>"⟩ else ⟨404, "not found"⟩

/- ═══════════════════════ Theorems ═══════════════════════ -/

/- Helper lemmas, shared across the claim theorems below. -/

/-- Every record restHitToResult emits carries the file path of its entry. -/
theorem restHitToResult_path {fp proj : String} {hit : RestHit} {r : SearchResult}
    (h : restHitToResult fp proj hit = some r) : r.path = fp := by
  unfold restHitToResult at h
  split at h
  · injection h with h2
    subst h2
    rfl
  · exact absurd h (by simp)

/-- On hits whose lineNumber and line fields are non-empty, the filterMap of
the rest normalizer is a plain map. -/
theorem filterMap_restHit_eq_map (fp proj : String) (hits : List RestHit)
    (h : ∀ x ∈ hits, x.lineNumber ≠ "" ∧ x.line ≠ "") :
    hits.filterMap (restHitToResult fp proj) =
      hits.map (fun hit =>
        { path := fp, line := jsParseInt hit.lineNumber, snippet := hit.line
        , project := if proj ≠ "" then proj else "unknown" }) := by
  induction hits with
  | nil => rfl
  | cons a t ih =>
    have ha := h a (List.mem_cons_self a t)
    have ht : ∀ x ∈ t, x.lineNumber ≠ "" ∧ x.line ≠ "" :=
      fun x hx => h x (List.mem_cons_of_mem a hx)
    simp [List.filterMap_cons, restHitToResult, ha.1, ha.2, ih ht]

/-- Filtering the flattened results on one key of the mapping recovers that
key's hits, provided the keys are distinct and the hits well-formed. -/
theorem flatMap_filter_key (proj : String) (l : List (String × List RestHit)) :
    ∀ (fp : String) (hits : List RestHit), (fp, hits) ∈ l →
      (l.map Prod.fst).Nodup →
      (∀ e ∈ l, ∀ x ∈ e.2, x.lineNumber ≠ "" ∧ x.line ≠ "") →
      (l.flatMap (fun e => e.2.filterMap (restHitToResult e.1 proj))).filter
          (fun r => r.path == fp) =
        hits.map (fun hit =>
          { path := fp, line := jsParseInt hit.lineNumber, snippet := hit.line
          , project := if proj ≠ "" then proj else "unknown" }) := by
  induction l with
  | nil =>
    intro fp hits hmem
    exact absurd hmem (List.not_mem_nil _)
  | cons e t ih =>
    intro fp hits hmem hnd hwf
    rw [List.flatMap_cons, List.filter_append]
    rw [List.map_cons, List.nodup_cons] at hnd
    have hnd1 : e.1 ∉ t.map Prod.fst := hnd.1
    have hnd2 : (t.map Prod.fst).Nodup := hnd.2
    have hwfe : ∀ x ∈ e.2, x.lineNumber ≠ "" ∧ x.line ≠ "" :=
      hwf e (List.mem_cons_self e t)
    have hwft : ∀ e2 ∈ t, ∀ x ∈ e2.2, x.lineNumber ≠ "" ∧ x.line ≠ "" :=
      fun e2 he2 => hwf e2 (List.mem_cons_of_mem e he2)
    have tailPath : ∀ r ∈ t.flatMap (fun e2 => e2.2.filterMap (restHitToResult e2.1 proj)),
        r.path ∈ t.map Prod.fst := by
      intro r hr
      obtain ⟨e2, he2, hr2⟩ := List.mem_flatMap.mp hr
      obtain ⟨x, _, hxr⟩ := List.mem_filterMap.mp hr2
      rw [restHitToResult_path hxr]
      exact List.mem_map.mpr ⟨e2, he2, rfl⟩
    rcases List.mem_cons.mp hmem with heq | hmem2
    · obtain ⟨rfl, rfl⟩ : fp = e.1 ∧ hits = e.2 := by
        constructor
        · exact congrArg Prod.fst heq
        · exact congrArg Prod.snd heq
      have htail : (t.flatMap (fun e2 => e2.2.filterMap (restHitToResult e2.1 proj))).filter
          (fun r => r.path == e.1) = [] := by
        rw [List.filter_eq_nil_iff]
        intro r hr
        have : r.path ≠ e.1 := fun hcontra => hnd1 (hcontra ▸ tailPath r hr)
        simpa using this
      rw [htail, List.append_nil, filterMap_restHit_eq_map e.1 proj e.2 hwfe,
        List.filter_map]
      have : ∀ hit : RestHit,
          ((fun r : SearchResult => r.path == e.1) ∘ fun hit : RestHit =>
            ({ path := e.1, line := jsParseInt hit.lineNumber, snippet := hit.line
             , project := if proj ≠ "" then proj else "unknown" } : SearchResult)) hit = true := by
        intro hit
        simp
      rw [List.filter_eq_self.mpr (fun a _ => this a)]
    · have hfp : fp ∈ t.map Prod.fst := List.mem_map.mpr ⟨(fp, hits), hmem2, rfl⟩
      have hne : e.1 ≠ fp := fun hcontra => hnd1 (hcontra ▸ hfp)
      have hhead : (e.2.filterMap (restHitToResult e.1 proj)).filter
          (fun r => r.path == fp) = [] := by
        rw [List.filter_eq_nil_iff]
        intro r hr
        obtain ⟨x, _, hxr⟩ := List.mem_filterMap.mp hr
        have : r.path ≠ fp := by
          rw [restHitToResult_path hxr]
          exact hne
        simpa using this
      rw [hhead, List.nil_append]
      exact ih fp hits hmem2 hnd2 hwft

/-- In rest-api mode the ping operation reduces to a status comparison: a
rejected exchange (validateStatus false or transport failure) lands in the
catch block and yields false. -/
theorem ping_ok_eq (r : HttpResponse) : ping (Except.ok r) = (r.status == 200) := by
  by_cases hv : restValidateStatus r.status = true
  · simp [ping, restTransport, hv]
  · have hne : r.status ≠ 200 := by
      intro h
      apply hv
      rw [h]
      decide
    simp [ping, restTransport, hv, hne]

/-- C1 counterexample: in the rest-api pipeline, the search operation turns
an upstream 401 into the generic status failure, not into an
authentication-expired failure, refuting the claim that status 401 or 403
yields an AuthenticationExpired failure on every operation in both
pipelines. -/
theorem c1_rest_search_401_not_auth :
    restSearchCheckStatus 401 =
      some (Failure.upstreamError 401 "Search failed with status 401") ∧
    (restSearchCheckStatus 401).map Failure.isAuthExpired = some false := by
  constructor
  · rfl
  · rfl

/-- C1 (amended): for status 401 or 403, every html-scrape operation and
every rest-api operation with the explicit auth check converts the response
to an authentication-expired failure carrying the cookie remediation text;
the rest-api search, suggestions and version operations instead raise the
generic upstream failure with the numeric status, and ping returns false. -/
theorem c1_auth_taxonomy (status : Nat) (h : status = 401 ∨ status = 403) :
    (∃ m, htmlSearchCheckStatus status = some (Failure.authenticationExpired status m) ∧
      containsSubstr m "cookies" = true) ∧
    (∃ m, htmlGetFileCheckStatus status = some (Failure.authenticationExpired status m) ∧
      containsSubstr m "OPENGROK_COOKIES" = true) ∧
    (∃ m, htmlXrefCheckStatus status = some (Failure.authenticationExpired status m) ∧
      containsSubstr m "OPENGROK_COOKIES" = true) ∧
    (∃ m, htmlListProjectsCheckStatus status = some (Failure.authenticationExpired status m) ∧
      containsSubstr m "OPENGROK_COOKIES" = true) ∧
    (∀ failMsg okStatus, ∃ m,
      restCheckedStatus failMsg okStatus status =
        some (Failure.authenticationExpired status m) ∧
      containsSubstr m "OPENGROK_COOKIES" = true) ∧
    restSearchCheckStatus status =
      some (Failure.upstreamError status s!"Search failed with status {status}") ∧
    restSuggestCheckStatus status =
      some (Failure.upstreamError status s!"Get suggestions failed with status {status}") ∧
    restVersionCheckStatus status =
      some (Failure.upstreamError status s!"Failed to get version: {status}") ∧
    (∀ body, ping (Except.ok ⟨status, body⟩) = false) := by
  rcases h with h | h <;> subst h <;>
    exact ⟨⟨_, rfl, by decide⟩, ⟨_, rfl, by decide⟩, ⟨_, rfl, by decide⟩,
      ⟨_, rfl, by decide⟩, fun failMsg okStatus => ⟨_, rfl, by decide⟩,
      rfl, rfl, rfl, fun body => rfl⟩

/-- C1 witness: the taxonomy at status 401. -/
theorem c1_auth_taxonomy_witness :
    (∃ m, htmlSearchCheckStatus 401 = some (Failure.authenticationExpired 401 m) ∧
      containsSubstr m "cookies" = true) ∧
    restSearchCheckStatus 401 =
      some (Failure.upstreamError 401 "Search failed with status 401") :=
  ⟨(c1_auth_taxonomy 401 (Or.inl rfl)).1,
    (c1_auth_taxonomy 401 (Or.inl rfl)).2.2.2.2.2.1⟩

/-- C2: the rest normalizer keeps both of two hits sharing (path, line):
evaluating transformSearchResults on one file with two hits on line 5 keeps
the duplicate, so no dedup happens although the dedup key is computed. -/
theorem c2_rest_duplicates_kept :
    transformSearchResults ⟨[("f.c", [⟨"first hit", "5", ""⟩, ⟨"second hit", "5", ""⟩])]⟩
        "proj" =
      [⟨"f.c", JsNum.num 5, "first hit", "proj"⟩,
       ⟨"f.c", JsNum.num 5, "second hit", "proj"⟩] := by
  decide

/-- C3 counterexample: a hit whose lineNumber field is the empty string is
silently dropped by the rest flattening, so a mapping with one key and one
hit yields zero records, not one. -/
theorem c3_empty_field_hit_dropped :
    (transformSearchResults ⟨[("f.c", [⟨"some code", "", ""⟩])]⟩ "proj").length = 0 ∧
    ([("f.c", [(⟨"some code", "", ""⟩ : RestHit)])].map
      (fun e : String × List RestHit => e.2.length)).sum = 1 := by
  decide

/-- C3 (amended): on every rest search response whose hits all carry
non-empty line and lineNumber fields, flattening a mapping with K keys each
having its list of hits yields exactly the sum of the per-file hit counts,
and filtering the flattened records on each key recovers that key's hits in
order, with the line numbers parsed and the snippets preserved. -/
theorem c3_rest_flatten (resp : SearchResponse) (project : String)
    (hwf : ∀ e ∈ resp.results, ∀ x ∈ e.2, x.lineNumber ≠ "" ∧ x.line ≠ "")
    (hkeys : (resp.results.map Prod.fst).Nodup) :
    (transformSearchResults resp project).length =
      (resp.results.map (fun e => e.2.length)).sum ∧
    ∀ e ∈ resp.results,
      (transformSearchResults resp project).filter (fun r => r.path == e.1) =
        e.2.map (fun hit =>
          { path := e.1, line := jsParseInt hit.lineNumber, snippet := hit.line
          , project := if project ≠ "" then project else "unknown" }) := by
  constructor
  · unfold transformSearchResults
    rw [List.length_flatMap]
    congr 1
    apply List.map_congr_left
    intro e he
    simp only [Function.comp_apply]
    rw [filterMap_restHit_eq_map e.1 project e.2 (hwf e he), List.length_map]
  · intro e he
    have := flatMap_filter_key project resp.results e.1 e.2 (by simpa using he) hkeys hwf
    exact this

/-- C3 witness: the amended claim at a two-file response with three hits. -/
theorem c3_rest_flatten_witness :
    (transformSearchResults
        ⟨[("a.c", [⟨"x", "1", ""⟩, ⟨"y", "2", ""⟩]), ("b.c", [⟨"z", "3", ""⟩])]⟩ "p").length =
      ([("a.c", [(⟨"x", "1", ""⟩ : RestHit), ⟨"y", "2", ""⟩]), ("b.c", [⟨"z", "3", ""⟩])].map
        (fun e : String × List RestHit => e.2.length)).sum ∧
    (transformSearchResults
        ⟨[("a.c", [⟨"x", "1", ""⟩, ⟨"y", "2", ""⟩]), ("b.c", [⟨"z", "3", ""⟩])]⟩ "p").filter
        (fun r => r.path == "a.c") =
      [⟨"a.c", jsParseInt "1", "x", "p"⟩, ⟨"a.c", jsParseInt "2", "y", "p"⟩] := by
  have h := c3_rest_flatten
    ⟨[("a.c", [⟨"x", "1", ""⟩, ⟨"y", "2", ""⟩]), ("b.c", [⟨"z", "3", ""⟩])]⟩ "p"
    (by decide) (by decide)
  refine ⟨h.1, ?_⟩
  have h2 := h.2 ("a.c", [⟨"x", "1", ""⟩, ⟨"y", "2", ""⟩]) (by simp)
  simpa using h2

/-- C4 counterexample: the rest-api adapter's validateStatus rejects 500,
refuting the claim that every status is classified successful transport in
both backend modes. -/
theorem c4_rest_500_throws : restValidateStatus 500 = false := by decide

/-- C4 (amended): the html-scrape adapter and the auth client accept every
status code as successful transport, while the rest-api adapter accepts
exactly the codes from 200 up to 499, so a 5xx (or sub-200) response throws
at the HTTP-client level in rest-api mode. -/
theorem c4_validate_status (status : Nat) :
    htmlValidateStatus status = true ∧ authValidateStatus status = true ∧
    (restValidateStatus status = true ↔ 200 ≤ status ∧ status < 500) :=
  ⟨rfl, rfl, by simp [restValidateStatus]⟩

/-- C5 counterexample: a present but non-numeric lineNumber field yields a
NaN line number, not 0: the rest pipeline lacks the or-zero guard the html
pipeline applies after parseInt. -/
theorem c5_nonnumeric_line_gives_nan :
    transformSearchResults ⟨[("f.c", [⟨"the code", "abc", ""⟩])]⟩ "proj" =
      [⟨"f.c", JsNum.nan, "the code", "proj"⟩] ∧ JsNum.nan ≠ JsNum.num 0 := by
  decide

/-- C5 (amended): for every hit with non-empty line and lineNumber fields
the rest normalizer emits one record whose line is parseInt of the
lineNumber field, NaN when that field carries no leading decimal numeral,
and whose snippet is the highlighted-line text unchanged. -/
theorem c5_line_number_parse :
    (∀ fp proj hit, hit.lineNumber ≠ "" → hit.line ≠ "" →
      restHitToResult fp proj hit =
        some { path := fp, line := jsParseInt hit.lineNumber, snippet := hit.line
             , project := if proj ≠ "" then proj else "unknown" }) ∧
    jsParseInt "abc" = JsNum.nan ∧ jsParseInt "12" = JsNum.num 12 := by
  refine ⟨fun fp proj hit h1 h2 => ?_, by decide, by decide⟩
  simp [restHitToResult, h1, h2]

/-- C5 witness: the parse behaviour at a concrete non-numeric hit. -/
theorem c5_line_number_parse_witness :
    restHitToResult "f.c" "proj" ⟨"the code", "abc", ""⟩ =
      some { path := "f.c", line := jsParseInt "abc", snippet := "the code"
           , project := if "proj" ≠ "" then "proj" else "unknown" } :=
  c5_line_number_parse.1 "f.c" "proj" ⟨"the code", "abc", ""⟩ (by decide) (by decide)

/-- C6: getFileContent issues at most two calls; the second call happens
exactly when the first (no-project-segment) request returns 404 and a
project name was supplied, in which case the project segment is prepended;
and against the documented mock (404 without the segment, 200 with it) the
operation succeeds using exactly those two calls in order. -/
theorem c6_get_file_retry :
    (∀ server path project, ((getFileContent server path project).2).length ≤ 2) ∧
    (∀ server path project,
      (getFileContent server path project).2 =
        if (server ("/xref/" ++ path)).status = 404 ∧ jsOptStrTruthy project = true then
          ["/xref/" ++ path, "/xref/" ++ project.getD "" ++ "/" ++ path]
        else ["/xref/" ++ path]) ∧
    getFileContent mockFileServer "file.c" (some "proj") =
      (Except.ok ⟨"file.c", "int x;", "proj"⟩, ["/xref/file.c", "/xref/proj/file.c"]) := by
  have hcalls : ∀ (server : String → HttpResponse) (path : String) (project : Option String),
      (getFileContent server path project).2 =
        if (server ("/xref/" ++ path)).status = 404 ∧ jsOptStrTruthy project = true then
          ["/xref/" ++ path, "/xref/" ++ project.getD "" ++ "/" ++ path]
        else ["/xref/" ++ path] := by
    intro server path project
    unfold getFileContent
    dsimp only
    split
    · split <;> simp_all
    · split <;> simp_all
  refine ⟨fun server path project => ?_, hcalls, by rfl⟩
  rw [hcalls]
  split <;> simp

/-- C7: file-content extraction returns the first pre block's body with the
markup tags stripped and the lt, gt, amp escapes reversed in that order and
the result trimmed; in particular the documented instance returns exactly
the unescaped text, the first of several blocks wins, inner tags are
removed, and the replacement order leaves a double escape half-resolved. -/
theorem c7_extract_file_content :
    (∀ html inner, findFirstPre html = some inner →
      extractFileContent html =
        jsTrim (jsReplaceAll (jsReplaceAll (jsReplaceAll (stripTags inner)
          "&lt;" "<") "&gt;" ">") "&amp;" "&")) ∧
    extractFileContent "<pre>Hello &amp; &lt;world&gt;</pre>" = "Hello & <world>" ∧
    extractFileContent "<pre>one</pre><pre>two</pre>" = "one" ∧
    extractFileContent "<pre>a<b>c</b>d</pre>" = "acd" ∧
    extractFileContent "<pre>&amp;lt;</pre>" = "&lt;" := by
  refine ⟨fun html inner h => ?_, by decide, by decide, by decide, by decide⟩
  unfold extractFileContent
  rw [h]

/-- C7 witness: the general statement applied at a one-block page. -/
theorem c7_extract_file_content_witness :
    extractFileContent "<pre>Z</pre>" =
      jsTrim (jsReplaceAll (jsReplaceAll (jsReplaceAll (stripTags "Z")
        "&lt;" "<") "&gt;" ">") "&amp;" "&") :=
  c7_extract_file_content.1 "<pre>Z</pre>" "Z" (by decide)

/-- C8: ping never raises: it is a total Bool-valued function of the
exchange's outcome, true exactly when the exchange resolved with status
200 and false on every other status and on every transport failure. -/
theorem c8_ping_never_raises (outcome : Except String HttpResponse) :
    ping outcome = true ↔ ∃ r, outcome = Except.ok r ∧ r.status = 200 := by
  cases outcome with
  | error m => simp [ping, restTransport]
  | ok r => simp [ping_ok_eq, beq_iff_eq]

/-- C9: loading the cookie string a=1; b=2 into a fresh jar and serializing
yields a string containing both a=1 and b=2. -/
theorem c9_cookie_roundtrip :
    containsSubstr (getCookieString (loadCookiesFromString [] "a=1; b=2")) "a=1" = true ∧
    containsSubstr (getCookieString (loadCookiesFromString [] "a=1; b=2")) "b=2" = true := by
  decide

/-- C10: every record getCrossReferences returns carries the kind fixed by
the backend mode alone: the definition kind in html-scrape mode and the
reference kind in rest-api mode, whatever the upstream response holds. -/
theorem c10_xref_kinds :
    (∀ resp symbol project refs,
      htmlGetCrossReferences resp symbol project = Except.ok refs →
      ∀ r ∈ refs, r.type = XrefKind.definition) ∧
    (∀ status resp symbol refs,
      restGetCrossReferences status resp symbol = Except.ok refs →
      ∀ r ∈ refs, r.type = XrefKind.reference) := by
  constructor
  · intro resp symbol project refs h r hr
    unfold htmlGetCrossReferences at h
    split at h
    · exact absurd h (by simp)
    · injection h with h2
      subst h2
      obtain ⟨x, _, rfl⟩ := List.mem_map.mp hr
      rfl
  · intro status resp symbol refs h r hr
    unfold restGetCrossReferences at h
    split at h
    · exact absurd h (by simp)
    · injection h with h2
      subst h2
      obtain ⟨entry, _, hr2⟩ := List.mem_flatMap.mp hr
      obtain ⟨hit, _, hxr⟩ := List.mem_filterMap.mp hr2
      split at hxr
      · injection hxr with h3
        subst h3
        rfl
      · exact absurd hxr (by simp)

/-- C10 witness: the html side at a concrete page with one anchor. -/
theorem c10_xref_kinds_witness :
    (⟨"sym", "proj/file.c", JsNum.num 12, XrefKind.definition⟩ : CrossReference).type =
      XrefKind.definition :=
  c10_xref_kinds.1
    ⟨200, "<a class=\"s\" href=\"/xref/proj/file.c#12\"><span class=\"l\">12</span>code</a>"⟩
    "sym" none
    [⟨"sym", "proj/file.c", JsNum.num 12, XrefKind.definition⟩] (by rfl)
    ⟨"sym", "proj/file.c", JsNum.num 12, XrefKind.definition⟩ (by simp)

end OpenGrokMCP
